import Mathlib

/-!
Verification development for the smartsdlc repository: a shallow embedding of
the server's orchestration layer (`server/services/openai.ts`), the PDF
processor (`server/services/pdfProcessor.ts`), the in-memory store
(`server/storage.ts`) and the HTTP route handlers (`server/routes.ts`),
together with theorems settling the specification's claims about them.

Conventions of the embedding:
* JavaScript strings are `String`, JSON numbers are `Int`, `Date` timestamps
  are `Nat`, byte buffers are `List Nat`.
* A JSON field that the model may omit is an `Option`; the JavaScript
  default operator `x || d` is `jsOrStr` / `jsOrInt` (falsy values, i.e.
  `undefined`, the empty string and `0`, select the default).
* A JavaScript `Map` is an association list with `mapGet` / `mapSet`
  (`set` replaces in place or appends, `get` finds the first binding).
* Each route handler is a pure function over its external inputs: the parsed
  request body, the outcome of the PDF extraction, the parsed reply of the
  external model (an `Except` for upstream failure), the freshly generated
  identifiers and the current time. It returns the HTTP status, the new
  store and the response payload, plus a flag recording whether the
  extraction step was reached.
-/

namespace SmartSDLC

/-- JavaScript `x || d` for string-valued fields: `undefined` and the empty
string are falsy and select the default. -/
def jsOrStr (x : Option String) (d : String) : String :=
  match x with
  | none => d
  | some s => if s = "" then d else s

/-- JavaScript `x || d` for number-valued fields: `undefined` and `0` are
falsy and select the default. -/
def jsOrInt (x : Option Int) (d : Int) : Int :=
  match x with
  | none => d
  | some n => if n = 0 then d else n

/-- `Map.get` on an association list: first binding for the key, if any. -/
def mapGet {α : Type} : List (String × α) → String → Option α
  | [], _ => none
  | (k', v') :: rest, k => if k' = k then some v' else mapGet rest k

/-- `Map.set` on an association list: replace the binding in place if the key
is present, append otherwise. -/
def mapSet {α : Type} : List (String × α) → String → α → List (String × α)
  | [], k, v => [(k, v)]
  | (k', v') :: rest, k, v =>
      if k' = k then (k, v) :: rest else (k', v') :: mapSet rest k v

theorem mapGet_mapSet_self {α : Type} (m : List (String × α)) (k : String) (v : α) :
    mapGet (mapSet m k v) k = some v := by
  induction m with
  | nil => simp [mapGet, mapSet]
  | cons hd tl ih =>
      obtain ⟨k', v'⟩ := hd
      by_cases h : k' = k
      · simp [mapGet, mapSet, h]
      · simp [mapGet, mapSet, h, ih]

/-! ## PDF processor (`server/services/pdfProcessor.ts`) -/

/-- The 4-byte PDF magic signature `%PDF` as bytes. -/
def pdfSignature : List Nat := [37, 80, 68, 70]

/-- `PDFProcessor.validatePDF`: `buffer.slice(0, 4).toString() === '%PDF'`. -/
def validatePDF (buffer : List Nat) : Bool :=
  buffer.take 4 == pdfSignature

/-- `PDFProcessor.getFileSize`: `buffer.length`. -/
def getFileSize (buffer : List Nat) : Nat :=
  buffer.length

/-- `PDFProcessor.isFileSizeValid`: `buffer.length <= maxSizeMB * 1024 * 1024`
(the source's default for `maxSizeMB` is 10). -/
def isFileSizeValid (buffer : List Nat) (maxSizeMB : Nat) : Bool :=
  getFileSize buffer ≤ maxSizeMB * 1024 * 1024

/-! ## AI orchestration service (`server/services/openai.ts`) -/

/-- One entry of the model's classification reply. -/
structure ClassificationItem where
  text : String
  phase : String
  confidence : Int
  userStory : String
deriving DecidableEq

/-- The five-label tally of the classification result. -/
structure ClassStats where
  Requirements : Nat
  Design : Nat
  Development : Nat
  Testing : Nat
  Deployment : Nat
deriving DecidableEq

/-- The parsed JSON reply of the external model for classification; either
top-level field may be missing. -/
structure ClassifyResponse where
  requirements : Option (List ClassificationItem)
  statistics : Option ClassStats
deriving DecidableEq

/-- The value `classifyRequirements` returns. -/
structure ClassificationResult where
  requirements : List ClassificationItem
  statistics : ClassStats
deriving DecidableEq

/-- One step of the statistics loop of `classifyRequirements`: increment the
tally field named by `phase` when it is one of the five keys of the
statistics object, leave the tally unchanged otherwise. -/
def bumpStat (s : ClassStats) (phase : String) : ClassStats :=
  if phase = "Requirements" then { s with Requirements := s.Requirements + 1 }
  else if phase = "Design" then { s with Design := s.Design + 1 }
  else if phase = "Development" then { s with Development := s.Development + 1 }
  else if phase = "Testing" then { s with Testing := s.Testing + 1 }
  else if phase = "Deployment" then { s with Deployment := s.Deployment + 1 }
  else s

/-- `classifyRequirements` after the model call: take the reply's
`requirements` list (defaulting to `[]`), recompute the statistics locally by
counting, and return both; the reply's own `statistics` object is ignored. -/
def classifyRequirements (resp : ClassifyResponse) : ClassificationResult :=
  let reqs := resp.requirements.getD []
  let statistics := reqs.foldl (fun s item => bumpStat s item.phase) ⟨0, 0, 0, 0, 0⟩
  { requirements := reqs, statistics := statistics }

/-- The parsed JSON reply of the external model for bug fixing. -/
structure BugFixResponse where
  fixedCode : Option String
  issues : Option (List String)
  optimizations : Option (List String)
deriving DecidableEq

/-- The value `fixBugs` returns. -/
structure BugFixResult where
  fixedCode : String
  issues : List String
  optimizations : List String
deriving DecidableEq

/-- `fixBugs` after the model call: `fixedCode` defaults to the original
input code via `result.fixedCode || code`; the lists default to `[]`. -/
def fixBugs (code : String) (resp : BugFixResponse) : BugFixResult :=
  { fixedCode := jsOrStr resp.fixedCode code,
    issues := resp.issues.getD [],
    optimizations := resp.optimizations.getD [] }

/-- The parsed JSON reply of the external model for test generation. -/
structure TestGenResponse where
  testCode : Option String
  coverage : Option Int
  totalTests : Option Int
  positiveTests : Option Int
  negativeTests : Option Int
deriving DecidableEq

/-- The value `generateTestCases` returns. -/
structure TestGenerationResult where
  testCode : String
  coverage : Int
  totalTests : Int
  positiveTests : Int
  negativeTests : Int
deriving DecidableEq

/-- `generateTestCases` after the model call: every field defaults
(`result.x || default`) independently; no relation between the three counts
is enforced. -/
def generateTestCases (resp : TestGenResponse) : TestGenerationResult :=
  { testCode := jsOrStr resp.testCode "",
    coverage := jsOrInt resp.coverage 0,
    totalTests := jsOrInt resp.totalTests 0,
    positiveTests := jsOrInt resp.positiveTests 0,
    negativeTests := jsOrInt resp.negativeTests 0 }

/-! ## Data model (`shared/schema.ts`) and in-memory store (`server/storage.ts`) -/

/-- `users` row. -/
structure User where
  id : String
  username : String
  password : String
  email : String
  createdAt : Nat
deriving DecidableEq

/-- `documents` row. -/
structure Document where
  id : String
  userId : Option String
  filename : String
  content : String
  uploadedAt : Nat
deriving DecidableEq

/-- `InsertDocument`: a `documents` row without `id` and `uploadedAt`. -/
structure InsertDocument where
  userId : Option String
  filename : String
  content : String
deriving DecidableEq

/-- `requirements` row. -/
structure Requirement where
  id : String
  documentId : Option String
  userId : Option String
  text : String
  phase : String
  confidence : Int
  userStory : Option String
  createdAt : Nat
deriving DecidableEq

/-- `InsertRequirement`: a `requirements` row without `id` and `createdAt`. -/
structure InsertRequirement where
  documentId : Option String
  userId : Option String
  text : String
  phase : String
  confidence : Int
  userStory : Option String
deriving DecidableEq

/-- `codeSnippets` row. -/
structure CodeSnippet where
  id : String
  userId : Option String
  title : String
  description : Option String
  language : String
  code : String
  generatedCode : Option String
  type : String
  createdAt : Nat
deriving DecidableEq

/-- `InsertCodeSnippet`: a `codeSnippets` row without `id` and `createdAt`. -/
structure InsertCodeSnippet where
  userId : Option String
  title : String
  description : Option String
  language : String
  code : String
  generatedCode : Option String
  type : String
deriving DecidableEq

/-- TypeScript `Partial<CodeSnippet>`: every field, the nullable ones
included, may be present or absent. -/
structure CodeSnippetUpdates where
  id : Option String
  userId : Option (Option String)
  title : Option String
  description : Option (Option String)
  language : Option String
  code : Option String
  generatedCode : Option (Option String)
  type : Option String
  createdAt : Option Nat
deriving DecidableEq

/-- The all-absent `Partial<CodeSnippet>`. -/
def emptyUpdates : CodeSnippetUpdates :=
  ⟨none, none, none, none, none, none, none, none, none⟩

/-- `testCases` row. -/
structure TestCase where
  id : String
  userId : Option String
  codeSnippetId : Option String
  framework : String
  testCode : String
  coverage : Option Int
  totalTests : Option Int
  createdAt : Nat
deriving DecidableEq

/-- `InsertTestCase`: a `testCases` row without `id` and `createdAt`. -/
structure InsertTestCase where
  userId : Option String
  codeSnippetId : Option String
  framework : String
  testCode : String
  coverage : Option Int
  totalTests : Option Int
deriving DecidableEq

/-- `documentations` row. -/
structure Documentation where
  id : String
  userId : Option String
  codeSnippetId : Option String
  style : String
  overview : Option String
  features : Option (List String)
  methods : Option (List (String × String))
  «example» : Option String
  createdAt : Nat
deriving DecidableEq

/-- `chatMessages` row. -/
structure ChatMessage where
  id : String
  userId : Option String
  message : String
  response : String
  createdAt : Nat
deriving DecidableEq

/-- The seven partitions of `MemStorage`, each a `Map` keyed by record id. -/
structure Store where
  users : List (String × User)
  documents : List (String × Document)
  requirements : List (String × Requirement)
  codeSnippets : List (String × CodeSnippet)
  testCases : List (String × TestCase)
  documentations : List (String × Documentation)
  chatMessages : List (String × ChatMessage)
deriving DecidableEq

/-- A `MemStorage` with every partition empty. -/
def emptyStore : Store := ⟨[], [], [], [], [], [], []⟩

/-- `MemStorage.createDocument`: stamp a fresh id and the current time,
normalize an absent `userId` to null, insert, return the stored record.
The fresh id and the clock are explicit arguments of the embedding. -/
def createDocument (st : Store) (ins : InsertDocument) (id : String) (now : Nat) :
    Document × Store :=
  let document : Document :=
    { id := id, userId := ins.userId, filename := ins.filename,
      content := ins.content, uploadedAt := now }
  (document, { st with documents := mapSet st.documents id document })

/-- `MemStorage.getDocument`. -/
def getDocument (st : Store) (id : String) : Option Document :=
  mapGet st.documents id

/-- `MemStorage.createRequirement`. -/
def createRequirement (st : Store) (ins : InsertRequirement) (id : String) (now : Nat) :
    Requirement × Store :=
  let requirement : Requirement :=
    { id := id, documentId := ins.documentId, userId := ins.userId,
      text := ins.text, phase := ins.phase, confidence := ins.confidence,
      userStory := ins.userStory, createdAt := now }
  (requirement, { st with requirements := mapSet st.requirements id requirement })

/-- `MemStorage.createCodeSnippet`. -/
def createCodeSnippet (st : Store) (ins : InsertCodeSnippet) (id : String) (now : Nat) :
    CodeSnippet × Store :=
  let snippet : CodeSnippet :=
    { id := id, userId := ins.userId, title := ins.title,
      description := ins.description, language := ins.language,
      code := ins.code, generatedCode := ins.generatedCode,
      type := ins.type, createdAt := now }
  (snippet, { st with codeSnippets := mapSet st.codeSnippets id snippet })

/-- `MemStorage.getCodeSnippet`. -/
def getCodeSnippet (st : Store) (id : String) : Option CodeSnippet :=
  mapGet st.codeSnippets id

/-- The spread `{ ...existing, ...updates }`: every field present in
`updates` overrides the existing one, `id` and `createdAt` included. -/
def mergeSnippet (existing : CodeSnippet) (updates : CodeSnippetUpdates) : CodeSnippet :=
  { id := updates.id.getD existing.id,
    userId := updates.userId.getD existing.userId,
    title := updates.title.getD existing.title,
    description := updates.description.getD existing.description,
    language := updates.language.getD existing.language,
    code := updates.code.getD existing.code,
    generatedCode := updates.generatedCode.getD existing.generatedCode,
    type := updates.type.getD existing.type,
    createdAt := updates.createdAt.getD existing.createdAt }

/-- `MemStorage.updateCodeSnippet`: when the id is bound, merge and store the
merged record under the original key and return it; otherwise return
`undefined` and leave the store untouched. -/
def updateCodeSnippet (st : Store) (id : String) (updates : CodeSnippetUpdates) :
    Option CodeSnippet × Store :=
  match mapGet st.codeSnippets id with
  | some existing =>
      let updated := mergeSnippet existing updates
      (some updated, { st with codeSnippets := mapSet st.codeSnippets id updated })
  | none => (none, st)

/-- `MemStorage.createTestCase`. -/
def createTestCase (st : Store) (ins : InsertTestCase) (id : String) (now : Nat) :
    TestCase × Store :=
  let testCase : TestCase :=
    { id := id, userId := ins.userId, codeSnippetId := ins.codeSnippetId,
      framework := ins.framework, testCode := ins.testCode,
      coverage := ins.coverage, totalTests := ins.totalTests, createdAt := now }
  (testCase, { st with testCases := mapSet st.testCases id testCase })

/-! ## HTTP route handlers (`server/routes.ts`) -/

/-- The single hard-coded user identity of the routes module. -/
def DEFAULT_USER_ID : String := "default-user"

/-- `req.file` as the upload handler sees it: multer's in-memory file with
its (possibly absent) filename and its byte buffer. -/
structure UploadedFile where
  filename : Option String
  buffer : List Nat
deriving DecidableEq

/-- What `POST /api/requirements/upload` produces: the HTTP status, the store
after the request, the persisted document and requirements and the statistics
of the JSON response, plus a flag recording whether control reached the
`extractText` call. -/
structure UploadOutcome where
  status : Nat
  store : Store
  extractCalled : Bool
  document : Option Document
  requirements : List Requirement
  statistics : Option ClassStats
deriving DecidableEq

/-- The persistence loop of the upload handler: one `createRequirement` per
classification item, in order, each with the fresh id `reqId i` for the i-th
item. Returns the accumulated `requirements` array and the final store. -/
def saveClassifiedRequirements (st : Store) (items : List ClassificationItem)
    (documentId : String) (reqId : Nat → String) (now : Nat) (i : Nat) :
    List Requirement × Store :=
  match items with
  | [] => ([], st)
  | item :: rest =>
      let (requirement, st1) := createRequirement st
        { documentId := some documentId, userId := some DEFAULT_USER_ID,
          text := item.text, phase := item.phase,
          confidence := item.confidence, userStory := some item.userStory }
        (reqId i) now
      let (reqs, st2) := saveClassifiedRequirements st1 rest documentId reqId now (i + 1)
      (requirement :: reqs, st2)

/-- The `POST /api/requirements/upload` handler. External effects are passed
in: `extraction` is the outcome of `pdfProcessor.extractText` (text and page
count, or a thrown error), `modelReply` the parsed reply of the external
model (or a thrown error), `docId` and `reqId` the fresh identifiers, `now`
the clock. Control flow mirrors the source: missing file, bad signature and
oversized buffer each return 400 before extraction; an extraction or model
failure is caught and returns 500; otherwise the document and each classified
requirement are persisted and the response is 200. -/
def handleUpload (file : Option UploadedFile)
    (extraction : Except String (String × Nat))
    (modelReply : Except String ClassifyResponse)
    (docId : String) (reqId : Nat → String) (now : Nat) (st : Store) :
    UploadOutcome :=
  match file with
  | none => ⟨400, st, false, none, [], none⟩
  | some f =>
      if ¬ validatePDF f.buffer then ⟨400, st, false, none, [], none⟩
      else if ¬ isFileSizeValid f.buffer 10 then ⟨400, st, false, none, [], none⟩
      else
        match extraction with
        | .error _ => ⟨500, st, true, none, [], none⟩
        | .ok (text, _pages) =>
            let (document, st1) := createDocument st
              { userId := some DEFAULT_USER_ID,
                filename := jsOrStr f.filename "uploaded.pdf",
                content := text } docId now
            match modelReply with
            | .error _ => ⟨500, st1, true, some document, [], none⟩
            | .ok resp =>
                let classificationResult := classifyRequirements resp
                let (reqs, st2) := saveClassifiedRequirements st1
                  classificationResult.requirements document.id reqId now 0
                ⟨200, st2, true, some document, reqs,
                  some classificationResult.statistics⟩

/-- The statistics object of the `POST /api/tests/generate` response. -/
structure TestStatistics where
  total : Int
  positive : Int
  negative : Int
deriving DecidableEq

/-- What `POST /api/tests/generate` produces. -/
structure TestsOutcome where
  status : Nat
  store : Store
  testCase : Option TestCase
  statistics : Option TestStatistics
deriving DecidableEq

/-- The `POST /api/tests/generate` handler: reject a missing (or falsy) `code`
field with 400, otherwise take the model's parsed reply (500 on an upstream
error), persist a `TestCase` and answer with the statistics assembled from
the reply's defaulted counts. -/
def handleTestsGenerate (code : Option String) (framework : Option String)
    (modelReply : Except String TestGenResponse)
    (tcId : String) (now : Nat) (st : Store) : TestsOutcome :=
  match code with
  | none => ⟨400, st, none, none⟩
  | some c =>
      if c = "" then ⟨400, st, none, none⟩
      else
        match modelReply with
        | .error _ => ⟨500, st, none, none⟩
        | .ok resp =>
            let testResult := generateTestCases resp
            let (testCase, st1) := createTestCase st
              { userId := some DEFAULT_USER_ID, codeSnippetId := none,
                framework := jsOrStr framework "unittest",
                testCode := testResult.testCode,
                coverage := some testResult.coverage,
                totalTests := some testResult.totalTests } tcId now
            ⟨200, st1, some testCase,
              some ⟨testResult.totalTests, testResult.positiveTests,
                testResult.negativeTests⟩⟩

/-! ## Theorems -/

theorem bumpStat_Requirements (s : ClassStats) (p : String) :
    (bumpStat s p).Requirements
      = s.Requirements + (if p = "Requirements" then 1 else 0) := by
  unfold bumpStat
  split_ifs <;> simp_all

theorem bumpStat_Design (s : ClassStats) (p : String) :
    (bumpStat s p).Design = s.Design + (if p = "Design" then 1 else 0) := by
  unfold bumpStat
  split_ifs <;> simp_all

theorem bumpStat_Development (s : ClassStats) (p : String) :
    (bumpStat s p).Development
      = s.Development + (if p = "Development" then 1 else 0) := by
  unfold bumpStat
  split_ifs <;> simp_all

theorem bumpStat_Testing (s : ClassStats) (p : String) :
    (bumpStat s p).Testing = s.Testing + (if p = "Testing" then 1 else 0) := by
  unfold bumpStat
  split_ifs <;> simp_all

theorem bumpStat_Deployment (s : ClassStats) (p : String) :
    (bumpStat s p).Deployment
      = s.Deployment + (if p = "Deployment" then 1 else 0) := by
  unfold bumpStat
  split_ifs <;> simp_all

theorem foldl_bumpStat_Requirements (l : List ClassificationItem) (s : ClassStats) :
    (l.foldl (fun acc item => bumpStat acc item.phase) s).Requirements
      = s.Requirements + (l.filter (fun i => i.phase == "Requirements")).length := by
  induction l generalizing s with
  | nil => simp
  | cons hd tl ih =>
      simp only [List.foldl_cons, List.filter_cons]
      rw [ih, bumpStat_Requirements]
      by_cases h : hd.phase = "Requirements"
      · simp [h]
        omega
      · simp [h]

theorem foldl_bumpStat_Design (l : List ClassificationItem) (s : ClassStats) :
    (l.foldl (fun acc item => bumpStat acc item.phase) s).Design
      = s.Design + (l.filter (fun i => i.phase == "Design")).length := by
  induction l generalizing s with
  | nil => simp
  | cons hd tl ih =>
      simp only [List.foldl_cons, List.filter_cons]
      rw [ih, bumpStat_Design]
      by_cases h : hd.phase = "Design"
      · simp [h]
        omega
      · simp [h]

theorem foldl_bumpStat_Development (l : List ClassificationItem) (s : ClassStats) :
    (l.foldl (fun acc item => bumpStat acc item.phase) s).Development
      = s.Development + (l.filter (fun i => i.phase == "Development")).length := by
  induction l generalizing s with
  | nil => simp
  | cons hd tl ih =>
      simp only [List.foldl_cons, List.filter_cons]
      rw [ih, bumpStat_Development]
      by_cases h : hd.phase = "Development"
      · simp [h]
        omega
      · simp [h]

theorem foldl_bumpStat_Testing (l : List ClassificationItem) (s : ClassStats) :
    (l.foldl (fun acc item => bumpStat acc item.phase) s).Testing
      = s.Testing + (l.filter (fun i => i.phase == "Testing")).length := by
  induction l generalizing s with
  | nil => simp
  | cons hd tl ih =>
      simp only [List.foldl_cons, List.filter_cons]
      rw [ih, bumpStat_Testing]
      by_cases h : hd.phase = "Testing"
      · simp [h]
        omega
      · simp [h]

theorem foldl_bumpStat_Deployment (l : List ClassificationItem) (s : ClassStats) :
    (l.foldl (fun acc item => bumpStat acc item.phase) s).Deployment
      = s.Deployment + (l.filter (fun i => i.phase == "Deployment")).length := by
  induction l generalizing s with
  | nil => simp
  | cons hd tl ih =>
      simp only [List.foldl_cons, List.filter_cons]
      rw [ih, bumpStat_Deployment]
      by_cases h : hd.phase = "Deployment"
      · simp [h]
        omega
      · simp [h]

/-- Claim C1: for every classification response, each of the five tallies of
`classifyRequirements` equals the number of entries of the returned
requirements list whose `phase` equals that label, and the result does not
depend on the statistics object the external model returned. -/
theorem classify_statistics_counts_locally (resp : ClassifyResponse) :
    ((classifyRequirements resp).statistics.Requirements
        = ((classifyRequirements resp).requirements.filter
            (fun i => i.phase == "Requirements")).length)
  ∧ ((classifyRequirements resp).statistics.Design
        = ((classifyRequirements resp).requirements.filter
            (fun i => i.phase == "Design")).length)
  ∧ ((classifyRequirements resp).statistics.Development
        = ((classifyRequirements resp).requirements.filter
            (fun i => i.phase == "Development")).length)
  ∧ ((classifyRequirements resp).statistics.Testing
        = ((classifyRequirements resp).requirements.filter
            (fun i => i.phase == "Testing")).length)
  ∧ ((classifyRequirements resp).statistics.Deployment
        = ((classifyRequirements resp).requirements.filter
            (fun i => i.phase == "Deployment")).length)
  ∧ (∀ s, classifyRequirements { resp with statistics := s }
        = classifyRequirements resp) := by
  refine ⟨?_, ?_, ?_, ?_, ?_, fun s => rfl⟩ <;>
    simp [classifyRequirements, foldl_bumpStat_Requirements, foldl_bumpStat_Design,
      foldl_bumpStat_Development, foldl_bumpStat_Testing, foldl_bumpStat_Deployment]

/-- Claim C2, counterexample: when the model supplies an empty-string
`fixedCode`, `fixBugs` substitutes the original input code, so the response's
`fixedCode` is not the model's corrected code. -/
theorem fixBugs_empty_fixedCode_counterexample :
    (fixBugs "originalCode" ⟨some "", none, none⟩).fixedCode = "originalCode"
  ∧ (fixBugs "originalCode" ⟨some "", none, none⟩).fixedCode ≠ "" := by
  constructor <;> decide

/-- Claim C2 as amended: `fixBugs` returns the model's corrected code when
the model supplied a non-empty one, and the original input code when the
field is absent or the empty string (JavaScript falsy default). -/
theorem fixBugs_default_substitution (code : String) (resp : BugFixResponse) :
    (∀ s, resp.fixedCode = some s → s ≠ "" → (fixBugs code resp).fixedCode = s)
  ∧ (resp.fixedCode = none → (fixBugs code resp).fixedCode = code)
  ∧ (resp.fixedCode = some "" → (fixBugs code resp).fixedCode = code) := by
  refine ⟨fun s hs hne => ?_, fun h => ?_, fun h => ?_⟩ <;>
    simp [fixBugs, jsOrStr, *]

/-- Claim C2 witness: the amended theorem applied at concrete inputs. -/
theorem fixBugs_default_substitution_witness :
    (fixBugs "x" ⟨some "y", none, none⟩).fixedCode = "y"
  ∧ (fixBugs "x" ⟨none, none, none⟩).fixedCode = "x" :=
  ⟨(fixBugs_default_substitution "x" ⟨some "y", none, none⟩).1 "y" rfl (by decide),
   (fixBugs_default_substitution "x" ⟨none, none, none⟩).2.1 rfl⟩

/-- Claim C6: `updateCodeSnippet` on an identifier absent from the
code-snippet partition returns `none` and leaves the whole store unchanged. -/
theorem updateCodeSnippet_absent_id (st : Store) (id : String)
    (updates : CodeSnippetUpdates) (h : mapGet st.codeSnippets id = none) :
    updateCodeSnippet st id updates = (none, st) := by
  simp [updateCodeSnippet, h]

/-- Claim C6 witness: the theorem applied to the empty store. -/
theorem updateCodeSnippet_absent_id_witness :
    updateCodeSnippet emptyStore "missing" emptyUpdates = (none, emptyStore) :=
  updateCodeSnippet_absent_id emptyStore "missing" emptyUpdates rfl

/-- Claim C7: `createDocument` (resp. `createCodeSnippet`) followed by
`getDocument` (resp. `getCodeSnippet`) with the returned record's identifier
returns exactly the created record, and the created record carries the insert
payload's fields (optional ones kept as given, `none` standing for the null
default), the fresh identifier and the creation timestamp. -/
theorem create_then_get_roundtrip (st : Store) (insDoc : InsertDocument)
    (insSnip : InsertCodeSnippet) (id1 id2 : String) (now1 now2 : Nat) :
    (getDocument (createDocument st insDoc id1 now1).2
        (createDocument st insDoc id1 now1).1.id
      = some (createDocument st insDoc id1 now1).1)
  ∧ ((createDocument st insDoc id1 now1).1
      = ⟨id1, insDoc.userId, insDoc.filename, insDoc.content, now1⟩)
  ∧ (getCodeSnippet (createCodeSnippet st insSnip id2 now2).2
        (createCodeSnippet st insSnip id2 now2).1.id
      = some (createCodeSnippet st insSnip id2 now2).1)
  ∧ ((createCodeSnippet st insSnip id2 now2).1
      = ⟨id2, insSnip.userId, insSnip.title, insSnip.description,
          insSnip.language, insSnip.code, insSnip.generatedCode,
          insSnip.type, now2⟩) := by
  refine ⟨?_, rfl, ?_, rfl⟩ <;>
    simp [getDocument, getCodeSnippet, createDocument, createCodeSnippet,
      mapGet_mapSet_self]

/-- Claim C10: the size-limit comparison of `isFileSizeValid` is inclusive —
a buffer of exactly 10 * 1024 * 1024 bytes is accepted, and only strictly
larger buffers are rejected. -/
theorem isFileSizeValid_boundary_inclusive (buffer : List Nat) :
    (buffer.length = 10 * 1024 * 1024 → isFileSizeValid buffer 10 = true)
  ∧ (10 * 1024 * 1024 < buffer.length → isFileSizeValid buffer 10 = false) := by
  constructor <;> intro h <;> simp [isFileSizeValid, getFileSize] <;> omega

/-- Claim C10 witness: the theorem applied to buffers of length exactly the
limit and one byte over it. -/
theorem isFileSizeValid_boundary_inclusive_witness :
    isFileSizeValid (List.replicate (10 * 1024 * 1024) 0) 10 = true
  ∧ isFileSizeValid (List.replicate (10 * 1024 * 1024 + 1) 0) 10 = false :=
  ⟨(isFileSizeValid_boundary_inclusive _).1 (by rw [List.length_replicate]),
   (isFileSizeValid_boundary_inclusive _).2 (by rw [List.length_replicate]; omega)⟩

/-- Claim C3, counterexample: a successful `POST /api/tests/generate`
response whose statistics do not satisfy `total = positive + negative`,
obtained from a model reply reporting 8 total but 5 positive and 2 negative
tests; the handler forwards the counts unchecked. -/
theorem tests_statistics_counterexample :
    ((handleTestsGenerate (some "def add(a,b): return a+b") (some "pytest")
        (.ok ⟨some "import pytest", some 90, some 8, some 5, some 2⟩)
        "tc1" 0 emptyStore).statistics = some ⟨8, 5, 2⟩)
  ∧ ((8 : Int) ≠ 5 + 2) := by
  constructor
  · rfl
  · decide

/-- Claim C3 as amended: the statistics of a successful
`POST /api/tests/generate` response are exactly the model's reported
`totalTests`, `positiveTests` and `negativeTests`, each defaulted to 0 when
absent or zero; `total = positive + negative` holds exactly when the model's
defaulted counts already satisfy that equation, the handler enforcing
nothing. -/
theorem tests_statistics_passthrough (code framework : Option String)
    (resp : TestGenResponse) (tcId : String) (now : Nat) (st : Store)
    (c : String) (hc : code = some c) (hne : c ≠ "") :
    ((handleTestsGenerate code framework (.ok resp) tcId now st).statistics
      = some ⟨jsOrInt resp.totalTests 0, jsOrInt resp.positiveTests 0,
          jsOrInt resp.negativeTests 0⟩)
  ∧ (∀ stats, (handleTestsGenerate code framework (.ok resp) tcId now st).statistics
        = some stats →
      (stats.total = stats.positive + stats.negative ↔
        jsOrInt resp.totalTests 0
          = jsOrInt resp.positiveTests 0 + jsOrInt resp.negativeTests 0)) := by
  subst hc
  constructor
  · simp [handleTestsGenerate, hne, generateTestCases, createTestCase]
  · intro stats hstats
    simp [handleTestsGenerate, hne, generateTestCases, createTestCase] at hstats
    subst hstats
    rfl

/-- Claim C3 witness: the amended theorem applied at a concrete request and
model reply. -/
theorem tests_statistics_passthrough_witness :
    (handleTestsGenerate (some "x") none (.ok ⟨none, none, some 3, some 1, some 1⟩)
        "t" 0 emptyStore).statistics = some ⟨3, 1, 1⟩ := by
  have h := tests_statistics_passthrough (some "x") none
    ⟨none, none, some 3, some 1, some 1⟩ "t" 0 emptyStore "x" rfl (by decide)
  simpa [jsOrInt] using h.1

theorem saveClassifiedRequirements_phases (st : Store)
    (items : List ClassificationItem) (documentId : String)
    (reqId : Nat → String) (now : Nat) (i : Nat) :
    (saveClassifiedRequirements st items documentId reqId now i).1.map
        (fun r => r.phase)
      = items.map (fun item => item.phase) := by
  induction items generalizing st i with
  | nil => rfl
  | cons hd tl ih => simp [saveClassifiedRequirements, createRequirement, ih]

/-- Claim C4, counterexample: the upload handler persists a Requirement whose
phase is the model-returned string "Banana", which is none of the five
enumerated labels — phases are stored verbatim, never validated. -/
theorem upload_phase_counterexample :
    ((handleUpload (some ⟨some "spec.pdf", pdfSignature⟩) (.ok ("some text", 1))
        (.ok ⟨some [⟨"the system shall run", "Banana", 50, "As a user"⟩], none⟩)
        "doc1" (fun _ => "req1") 7 emptyStore).requirements.map (fun r => r.phase)
      = ["Banana"])
  ∧ ("Banana" ∉
      ["Requirements", "Design", "Development", "Testing", "Deployment"]) := by
  constructor
  · rfl
  · decide

/-- Claim C4 as amended: every Requirement record the upload handler persists
has exactly the phase string of the corresponding classification item — the
phases come verbatim from the model's reply, restricted to the five labels
only inside the statistics tally, not in the persisted records. -/
theorem upload_persists_phases_verbatim (f : UploadedFile) (text : String)
    (pages : Nat) (resp : ClassifyResponse) (docId : String)
    (reqId : Nat → String) (now : Nat) (st : Store)
    (hsig : validatePDF f.buffer = true)
    (hsize : isFileSizeValid f.buffer 10 = true) :
    (handleUpload (some f) (.ok (text, pages)) (.ok resp) docId reqId now
        st).requirements.map (fun r => r.phase)
      = (resp.requirements.getD []).map (fun i => i.phase) := by
  simp [handleUpload, hsig, hsize, createDocument,
    saveClassifiedRequirements_phases, classifyRequirements]

/-- Claim C4 witness: the amended theorem applied at a concrete upload whose
model reply classifies one sentence as Design. -/
theorem upload_persists_phases_verbatim_witness :
    (handleUpload (some ⟨none, pdfSignature⟩) (.ok ("t", 1))
        (.ok ⟨some [⟨"s", "Design", 80, "u"⟩], none⟩) "d" (fun _ => "r") 0
        emptyStore).requirements.map (fun r => r.phase) = ["Design"] := by
  have h := upload_persists_phases_verbatim ⟨none, pdfSignature⟩ "t" 1
    ⟨some [⟨"s", "Design", 80, "u"⟩], none⟩ "d" (fun _ => "r") 0 emptyStore
    (by decide) (by decide)
  simpa using h

/-- The insert payload of the concrete code snippet used for claim C5. -/
def sampleSnippetInsert : InsertCodeSnippet :=
  ⟨some DEFAULT_USER_ID, "Title", none, "python", "print(1)", none, "original"⟩

/-- The store holding the concrete code snippet used for claim C5, created
under id "a" at time 5. -/
def sampleSnippetStore : Store :=
  (createCodeSnippet emptyStore sampleSnippetInsert "a" 5).2

/-- Claim C5, counterexample: `updateCodeSnippet` with a partial-fields
argument containing `id` and `createdAt` overwrites both on the stored
record — the record created with id "a" and timestamp 5 afterwards carries
id "b" and timestamp 99. -/
theorem updateCodeSnippet_mutates_id_counterexample :
    ((getCodeSnippet sampleSnippetStore "a").map (fun s => (s.id, s.createdAt))
      = some ("a", 5))
  ∧ ((getCodeSnippet
        (updateCodeSnippet sampleSnippetStore "a"
          { emptyUpdates with id := some "b", createdAt := some 99 }).2 "a").map
        (fun s => (s.id, s.createdAt))
      = some ("b", 99)) := by
  constructor
  · rfl
  · rfl

/-- Claim C5 as amended: `updateCodeSnippet` preserves the `id` and
`createdAt` of an existing record exactly when the partial-fields argument
omits those two fields; the spread merge otherwise overrides them like any
other field. -/
theorem updateCodeSnippet_preserves_id_createdAt (st : Store) (id : String)
    (updates : CodeSnippetUpdates) (existing : CodeSnippet)
    (hex : mapGet st.codeSnippets id = some existing)
    (hid : updates.id = none) (hca : updates.createdAt = none) :
    ((updateCodeSnippet st id updates).1.map (fun s => (s.id, s.createdAt))
      = some (existing.id, existing.createdAt))
  ∧ ((getCodeSnippet (updateCodeSnippet st id updates).2 id).map
        (fun s => (s.id, s.createdAt))
      = some (existing.id, existing.createdAt)) := by
  constructor <;>
    simp [updateCodeSnippet, hex, mergeSnippet, hid, hca, getCodeSnippet,
      mapGet_mapSet_self]

/-- Claim C5 witness: the amended theorem applied to the concrete snippet
store with an update touching only the `generatedCode` field. -/
theorem updateCodeSnippet_preserves_id_createdAt_witness :
    ((updateCodeSnippet sampleSnippetStore "a"
        { emptyUpdates with generatedCode := some (some "fixed") }).1.map
        (fun s => (s.id, s.createdAt))
      = some ("a", 5)) := by
  have h := updateCodeSnippet_preserves_id_createdAt sampleSnippetStore "a"
    { emptyUpdates with generatedCode := some (some "fixed") }
    ⟨"a", some DEFAULT_USER_ID, "Title", none, "python", "print(1)", none,
      "original", 5⟩ rfl rfl rfl
  simpa using h.1

/-- Claim C8: an uploaded buffer whose first four bytes are not the `%PDF`
signature makes the upload handler answer 400 with the store unchanged, no
Document created and the extraction step never reached. -/
theorem upload_rejects_bad_signature (f : UploadedFile)
    (extraction : Except String (String × Nat))
    (modelReply : Except String ClassifyResponse)
    (docId : String) (reqId : Nat → String) (now : Nat) (st : Store)
    (h : f.buffer.take 4 ≠ pdfSignature) :
    handleUpload (some f) extraction modelReply docId reqId now st
      = ⟨400, st, false, none, [], none⟩ := by
  have hv : validatePDF f.buffer = false := by
    simpa [validatePDF] using h
  simp [handleUpload, hv]

/-- Claim C8 witness: the theorem applied to a four-byte buffer that is not
the signature. -/
theorem upload_rejects_bad_signature_witness :
    handleUpload (some ⟨none, [0, 1, 2, 3]⟩) (.ok ("", 0)) (.error "e") "d"
        (fun _ => "r") 0 emptyStore
      = ⟨400, emptyStore, false, none, [], none⟩ :=
  upload_rejects_bad_signature ⟨none, [0, 1, 2, 3]⟩ (.ok ("", 0)) (.error "e")
    "d" (fun _ => "r") 0 emptyStore (by decide)

/-- Claim C9: an uploaded buffer strictly larger than 10 * 1024 * 1024 bytes
makes the upload handler answer 400 with the store unchanged, no Document
created and `extractText` never invoked — whichever of the signature check or
the size check fires first. -/
theorem upload_rejects_oversized (f : UploadedFile)
    (extraction : Except String (String × Nat))
    (modelReply : Except String ClassifyResponse)
    (docId : String) (reqId : Nat → String) (now : Nat) (st : Store)
    (h : 10 * 1024 * 1024 < f.buffer.length) :
    handleUpload (some f) extraction modelReply docId reqId now st
      = ⟨400, st, false, none, [], none⟩ := by
  have hs : isFileSizeValid f.buffer 10 = false := by
    simp [isFileSizeValid, getFileSize]
    omega
  by_cases hv : validatePDF f.buffer = true
  · simp [handleUpload, hv, hs]
  · have hv' : validatePDF f.buffer = false := by simpa using hv
    simp [handleUpload, hv']

/-- Claim C9 witness: the theorem applied to a buffer one byte over the
limit. -/
theorem upload_rejects_oversized_witness :
    handleUpload (some ⟨none, List.replicate (10 * 1024 * 1024 + 1) 0⟩)
        (.ok ("", 0)) (.error "e") "d" (fun _ => "r") 0 emptyStore
      = ⟨400, emptyStore, false, none, [], none⟩ :=
  upload_rejects_oversized ⟨none, List.replicate (10 * 1024 * 1024 + 1) 0⟩
    (.ok ("", 0)) (.error "e") "d" (fun _ => "r") 0 emptyStore
    (by rw [List.length_replicate]; omega)

end SmartSDLC
